import Mathlib

/-!
Verification of `src/inputs/ligand_extract.py` (repository michellab/RNA_AFE).

The script parses a PDB file with Biopython, scans models, chains and
residues in stored order, and on the first residue whose identifier equals
`ligand_id` calls `io.save(output_pdb, select=ligand_id)` and prints a
confirmation line.

The shallow embedding below models the parsed structure hierarchy, the
nested scan with early return, and the external writer `PDBIO.save`.  The
writer is not part of the repository; its behaviour is modelled from the
description in the spec of the selection predicate ("a transient object/closure
bound to a single target identifier, consulted by the writer to decide
which atoms/residues to emit") and from the documented Biopython interface:
`save(file, select)` opens `file` for writing (truncating it) and then, for
each model, chain, residue and atom, calls the accept methods of `select`.
A value that has no accept methods (such as a bare identifier tuple) makes
the first such call fail with an attribute error, after the file has
already been created empty.
-/

namespace LigandExtract

/-- A Biopython residue identifier: (hetero flag, sequence number, insertion
code), compared by tuple equality exactly as `residue.id == ligand_id`
does in the source. -/
abbrev ResId := String × Int × String

/-- An atom of a residue.  Only the name is tracked; it stands for the whole
atom record. -/
structure Atom where
  name : String
deriving DecidableEq, Repr

/-- A residue: its identifier tuple and its atoms in stored order. -/
structure Residue where
  id : ResId
  atoms : List Atom
deriving DecidableEq, Repr

/-- A chain: its identifier and its residues in stored order. -/
structure Chain where
  cid : String
  residues : List Residue
deriving DecidableEq, Repr

/-- A model: its chains in stored order. -/
structure PDBModel where
  chains : List Chain
deriving DecidableEq, Repr

/-- The full parsed hierarchy of a structure file: models, in stored order. -/
structure PDBStructure where
  models : List PDBModel
deriving DecidableEq, Repr

/-- Errors of the external parser and writer, as seen by the script: I/O
failures (missing file, permissions), malformed input, and the attribute
error raised when the writer consults a select value that has no accept
methods. -/
inductive PyError where
  | ioError
  | parseError
  | attributeError
deriving DecidableEq, Repr

/-- The value the script passes as the `select` argument of the
save operation of the writer.  `rawTuple id` is a bare identifier tuple, which is what
line 14 of the source passes (`select=ligand_id`).  `ligandSelect id` is
modelled from the spec: a selection predicate bound to `id`, accepting
exactly the residues whose identifier equals `id`; no such object is
constructed anywhere in the source. -/
inductive SelectVal where
  | rawTuple (id : ResId)
  | ligandSelect (id : ResId)
deriving DecidableEq, Repr

/-- One atom record of an output file: the chain it came from, the residue
identifier fields, and the atom.  Re-parsing an output file groups its
records by (chain, residue identifier). -/
structure AtomRecord where
  chainId : String
  resId : ResId
  atom : Atom
deriving DecidableEq, Repr

/-- Contents of a written structure file: its atom records in order. -/
abbrev FileContents := List AtomRecord

/-- The atom records a writer emits for one chain, keeping exactly the
residues accepted by `accept`. -/
def renderChain (accept : ResId → Bool) (c : Chain) : FileContents :=
  (c.residues.filter (fun r => accept r.id)).flatMap
    (fun r => r.atoms.map (fun a => ⟨c.cid, r.id, a⟩))

/-- The atom records a writer emits for a whole structure, in model, chain,
residue, atom order, keeping exactly the residues accepted by `accept`. -/
def renderStructure (accept : ResId → Bool) (s : PDBStructure) : FileContents :=
  s.models.flatMap (fun m => m.chains.flatMap (renderChain accept))

/-- Result of one call to the save operation of the writer: the contents left at
the output path (`none` when the file could not even be created) and the
error it raised, if any. -/
structure SaveResult where
  file : Option FileContents
  error : Option PyError
deriving DecidableEq, Repr

/-- Modelled from the spec: the save operation of the external writer
(`Bio.PDB.PDBIO.save`), whose source is not part of this repository.  If the
output location is not writable it fails with an I/O error and creates no
file.  Otherwise it opens the file for writing, truncating it, and walks the
structure consulting the select value: a selection predicate emits exactly
the atoms of the accepted residues; a bare identifier tuple has no accept methods,
so the first consultation (on the first model) raises an attribute error,
leaving the just-truncated file empty.  A structure with no models is never
consulted, so saving it succeeds with an empty record list. -/
def PDBIO_save (writable : Bool) (s : PDBStructure) (sel : SelectVal) : SaveResult :=
  if writable then
    match sel with
    | .rawTuple _ =>
        if s.models.isEmpty then ⟨some [], none⟩
        else ⟨some [], some .attributeError⟩
    | .ligandSelect lid => ⟨some (renderStructure (fun i => i = lid) s), none⟩
  else ⟨none, some .ioError⟩

/-- The inner loop of the scan: first residue of the chain whose identifier
equals `ligand_id` (source line 12-13). -/
def findInChain (ligand_id : ResId) (c : Chain) : Option Residue :=
  c.residues.find? (fun r => decide (r.id = ligand_id))

/-- The middle loop of the scan: first match over the chains of a model
(source line 11). -/
def findInModel (ligand_id : ResId) (m : PDBModel) : Option Residue :=
  m.chains.findSome? (findInChain ligand_id)

/-- The outer loop of the scan: first match over the models of the structure
(source line 10).  `none` means the nested loops ran to completion. -/
def findFirstMatch (ligand_id : ResId) (s : PDBStructure) : Option Residue :=
  s.models.findSome? (findInModel ligand_id)

/-- All residues of a structure flattened in iteration order: model order,
then chain order, then residue order as stored. -/
def residuesInOrder (s : PDBStructure) : List Residue :=
  s.models.flatMap (fun m => m.chains.flatMap (fun c => c.residues))

/-- One recorded invocation of the save operation of the writer: the path given,
the structure the writer was prepared with, and the select value passed. -/
structure SaveCall where
  path : String
  source : PDBStructure
  sel : SelectVal
deriving DecidableEq, Repr

/-- Everything observable about one call of `extract_ligand`: the save
invocations made, the file left at the output path (with its path), the
lines printed to standard output, and the error propagating out, if any. -/
structure Outcome where
  saveCalls : List SaveCall
  fileWritten : Option (String × FileContents)
  printed : List String
  error : Option PyError
deriving DecidableEq, Repr

/-- The confirmation line of source line 15, naming the identifier tuple and
the output path. -/
def confirmMsg (ligand_id : ResId) (output_pdb : String) : String :=
  "Ligand (" ++ ligand_id.1 ++ ", " ++ toString ligand_id.2.1 ++ ", "
    ++ ligand_id.2.2 ++ ") extracted and saved to " ++ output_pdb

/-- The script `extract_ligand(input_pdb, ligand_id, output_pdb)`.  The
outcome of parsing `input_pdb` is the `parsed` argument (the parser is
external; a parse failure propagates, uncaught).  `writable` says whether
the output path can be opened for writing.  On a successful parse the nested
scan runs; on its first match the save operation of the writer is invoked with the bare
identifier tuple as select value (source line 14), then, only if save
returned without error, the confirmation line is printed (line 15) and the
function returns (line 16).  If the scan finds no match the function falls
off the loops and returns with no side effect. -/
def extract_ligand (parsed : Except PyError PDBStructure) (ligand_id : ResId)
    (output_pdb : String) (writable : Bool) : Outcome :=
  match parsed with
  | .error e => ⟨[], none, [], some e⟩
  | .ok s =>
    match findFirstMatch ligand_id s with
    | none => ⟨[], none, [], none⟩
    | some _ =>
      let sel := SelectVal.rawTuple ligand_id
      let res := PDBIO_save writable s sel
      { saveCalls := [⟨output_pdb, s, sel⟩]
        fileWritten := res.file.map (fun f => (output_pdb, f))
        printed :=
          match res.error with
          | some _ => []
          | none => [confirmMsg ligand_id output_pdb]
        error := res.error }

/-- Residue keys present in an output file, for re-parsing: the distinct
(chain, residue identifier) pairs of its atom records. -/
def residueKeys (f : FileContents) : List (String × ResId) :=
  (f.map (fun r => (r.chainId, r.resId))).dedup

/-! Concrete fixtures: the scenario of the spec of a chain A holding the residue
with identifier `(" ", 1, " ")` among protein residues. -/

/-- The example identifier of the entry point of the source. -/
def ligId : ResId := (" ", 1, " ")

/-- The target residue with two atoms. -/
def ligRes : Residue := ⟨ligId, [⟨"O1"⟩, ⟨"C1"⟩]⟩

/-- A protein residue before the target in stored order. -/
def proRes : Residue := ⟨(" ", 2, " "), [⟨"N"⟩, ⟨"CA"⟩]⟩

/-- Chain A of the scenario: a protein residue, then the target residue. -/
def testChain : Chain := ⟨"A", [proRes, ligRes]⟩

/-- The scenario structure: one model with chain A. -/
def testStruct : PDBStructure := ⟨[⟨[testChain]⟩]⟩

/-- A structure with no residue matching `ligId`. -/
def noMatchStruct : PDBStructure := ⟨[⟨[⟨"A", [proRes]⟩]⟩]⟩

/-! Helper lemmas: the nested loops with early return are the first match of
the flattened iteration order. -/

/-- Scanning the chains of one model is a first-match search over its
residues flattened in chain order. -/
theorem findSome?_chains_eq (lid : ResId) (cs : List Chain) :
    cs.findSome? (findInChain lid) =
      (cs.flatMap (fun c => c.residues)).find? (fun r => decide (r.id = lid)) := by
  induction cs with
  | nil => rfl
  | cons c cs ih =>
    rw [List.findSome?_cons, List.flatMap_cons, List.find?_append, ← ih]
    cases h : findInChain lid c with
    | none =>
      have : c.residues.find? (fun r => decide (r.id = lid)) = none := h
      simp [this, Option.or]
    | some r =>
      have : c.residues.find? (fun r => decide (r.id = lid)) = some r := h
      simp [this, Option.or]

/-- Scanning the models is a first-match search over all residues flattened
in model, chain, residue order. -/
theorem findSome?_models_eq (lid : ResId) (ms : List PDBModel) :
    ms.findSome? (findInModel lid) =
      (ms.flatMap (fun m => m.chains.flatMap (fun c => c.residues))).find?
        (fun r => decide (r.id = lid)) := by
  induction ms with
  | nil => rfl
  | cons m ms ih =>
    rw [List.findSome?_cons, List.flatMap_cons, List.find?_append, ← ih]
    have hm : findInModel lid m =
        (m.chains.flatMap (fun c => c.residues)).find? (fun r => decide (r.id = lid)) :=
      findSome?_chains_eq lid m.chains
    cases h : findInModel lid m with
    | none => rw [hm] at h; simp [h, Option.or]
    | some r => rw [hm] at h; simp [h, Option.or]

/-- The whole scan returns the first residue in flattened iteration order
whose identifier equals the target. -/
theorem findFirstMatch_eq_find? (lid : ResId) (s : PDBStructure) :
    findFirstMatch lid s = (residuesInOrder s).find? (fun r => decide (r.id = lid)) :=
  findSome?_models_eq lid s.models

/-! The claims. -/

/-- Claim C1 (code bug, evaluated at the failing input): the claim says the
save operation receives a selection predicate parameterized by the
identifier; the code instead passes the bare identifier tuple itself
(`select=ligand_id`, source line 14).  At the scenario input the single save
call carries `SelectVal.rawTuple ligId`, which is not the selection
predicate, and the save fails with an attribute error. -/
theorem c1_save_gets_raw_tuple_not_predicate :
    (extract_ligand (.ok testStruct) ligId "extracted_ligand.pdb" true).saveCalls =
        [⟨"extracted_ligand.pdb", testStruct, .rawTuple ligId⟩] ∧
      SelectVal.rawTuple ligId ≠ SelectVal.ligandSelect ligId ∧
      (extract_ligand (.ok testStruct) ligId "extracted_ligand.pdb" true).error =
        some .attributeError := by
  decide

/-- Claim C2 (code bug, evaluated at the failing input): the claim says the
output file contains exactly the atoms of the matching residue.  At the
scenario input there is exactly one matching residue and it has atoms, yet
the file left at the output path is empty, because the save crashed right
after truncating it. -/
theorem c2_output_file_empty_not_residue_atoms :
    (residuesInOrder testStruct).filter (fun r => decide (r.id = ligId)) = [ligRes] ∧
      ligRes.atoms ≠ [] ∧
      (extract_ligand (.ok testStruct) ligId "extracted_ligand.pdb" true).fileWritten =
        some ("extracted_ligand.pdb", []) := by
  decide

/-- Claim C3: when no residue of the parsed structure matches the
identifier, the call makes no save invocation, writes no file, prints
nothing and returns without error. -/
theorem c3_no_match_silent_noop (s : PDBStructure) (lid : ResId)
    (out : String) (w : Bool) (h : findFirstMatch lid s = none) :
    extract_ligand (.ok s) lid out w = ⟨[], none, [], none⟩ := by
  simp [extract_ligand, h]

/-- Witness for C3 at a concrete structure without the identifier. -/
theorem c3_no_match_silent_noop_witness :
    findFirstMatch ligId noMatchStruct = none ∧
      extract_ligand (.ok noMatchStruct) ligId "extracted_ligand.pdb" true =
        ⟨[], none, [], none⟩ :=
  ⟨by decide,
    c3_no_match_silent_noop noMatchStruct ligId "extracted_ligand.pdb" true (by decide)⟩

/-- Claim C4: at most one save invocation ever happens; the scan result is
the first residue of the flattened iteration order (models, then chains,
then residues as stored) whose identifier equals the target, so identical
identifiers later in that order are never reached; and the save is
triggered exactly when such a residue exists. -/
theorem c4_first_match_triggers_single_save (s : PDBStructure) (lid : ResId)
    (out : String) (w : Bool) :
    (extract_ligand (.ok s) lid out w).saveCalls.length ≤ 1 ∧
      findFirstMatch lid s = (residuesInOrder s).find? (fun r => decide (r.id = lid)) ∧
      (extract_ligand (.ok s) lid out w).saveCalls =
        (if ((residuesInOrder s).find? (fun r => decide (r.id = lid))).isSome then
          [⟨out, s, SelectVal.rawTuple lid⟩]
        else []) := by
  refine ⟨?_, findFirstMatch_eq_find? lid s, ?_⟩
  · cases h : findFirstMatch lid s <;> simp [extract_ligand, h]
  · rw [← findFirstMatch_eq_find? lid s]
    cases h : findFirstMatch lid s <;> simp [extract_ligand, h]

/-- Claim C5: the structure handed to every save invocation is the parsed
structure itself, unchanged; no step between parsing and the save mutates
it. -/
theorem c5_structure_passed_as_parsed (s : PDBStructure) (lid : ResId)
    (out : String) (w : Bool) (c : SaveCall)
    (hc : c ∈ (extract_ligand (.ok s) lid out w).saveCalls) :
    c.source = s := by
  cases h : findFirstMatch lid s with
  | none => simp [extract_ligand, h] at hc
  | some r =>
    simp [extract_ligand, h] at hc
    rw [hc]

/-- Witness for C5 at the scenario input, where one save call exists. -/
theorem c5_structure_passed_as_parsed_witness :
    (⟨"extracted_ligand.pdb", testStruct, .rawTuple ligId⟩ : SaveCall) ∈
        (extract_ligand (.ok testStruct) ligId "extracted_ligand.pdb" true).saveCalls ∧
      (⟨"extracted_ligand.pdb", testStruct, .rawTuple ligId⟩ : SaveCall).source =
        testStruct :=
  ⟨by decide,
    c5_structure_passed_as_parsed testStruct ligId "extracted_ligand.pdb" true _ (by decide)⟩

/-- Claim C6: errors of the external parser and writer propagate out
untranslated, and the call raises in no other case: a parse error is
returned exactly as raised, with no save, no file and no print; after a
successful parse the error of the call is exactly the error of the save
invocation when a match triggered one, and absent otherwise. -/
theorem c6_errors_propagate_unhandled (lid : ResId) (out : String) (w : Bool) :
    (∀ e : PyError, extract_ligand (.error e) lid out w = ⟨[], none, [], some e⟩) ∧
      ∀ s : PDBStructure,
        (extract_ligand (.ok s) lid out w).error =
          if (findFirstMatch lid s).isSome then
            (PDBIO_save w s (.rawTuple lid)).error
          else none := by
  refine ⟨fun e => rfl, fun s => ?_⟩
  cases h : findFirstMatch lid s <;> simp [extract_ligand, h]

/-- Claim C7 (code bug, evaluated at the failing input): the claim says one
confirmation line is printed whenever a matching residue is found; at the
scenario input a match is found, yet nothing is printed, because the save
call raises before the print statement is reached. -/
theorem c7_nothing_printed_on_match :
    (findFirstMatch ligId testStruct).isSome = true ∧
      (extract_ligand (.ok testStruct) ligId "extracted_ligand.pdb" true).printed = [] := by
  decide

/-- Claim C8: determinism — two invocations with equal parsed structures,
identifiers, output paths and write environments produce equal observable
outcomes, in particular identical written file contents. -/
theorem c8_deterministic (s₁ s₂ : PDBStructure) (l₁ l₂ : ResId)
    (o₁ o₂ : String) (w₁ w₂ : Bool)
    (hs : s₁ = s₂) (hl : l₁ = l₂) (ho : o₁ = o₂) (hw : w₁ = w₂) :
    extract_ligand (.ok s₁) l₁ o₁ w₁ = extract_ligand (.ok s₂) l₂ o₂ w₂ ∧
      (extract_ligand (.ok s₁) l₁ o₁ w₁).fileWritten =
        (extract_ligand (.ok s₂) l₂ o₂ w₂).fileWritten := by
  subst hs hl ho hw
  exact ⟨rfl, rfl⟩

/-- Witness for C8 at the scenario input. -/
theorem c8_deterministic_witness :
    extract_ligand (.ok testStruct) ligId "extracted_ligand.pdb" true =
        extract_ligand (.ok testStruct) ligId "extracted_ligand.pdb" true ∧
      (extract_ligand (.ok testStruct) ligId "extracted_ligand.pdb" true).fileWritten =
        (extract_ligand (.ok testStruct) ligId "extracted_ligand.pdb" true).fileWritten :=
  c8_deterministic testStruct testStruct ligId ligId "extracted_ligand.pdb"
    "extracted_ligand.pdb" true true rfl rfl rfl rfl

/-- Claim C9 (code bug, evaluated at the failing input): the claim says
re-parsing the output file yields exactly one residue with the identifier;
at the scenario input a match exists, but the written file is empty, so
re-parsing it yields no residue at all. -/
theorem c9_reparse_yields_no_residue :
    (findFirstMatch ligId testStruct).isSome = true ∧
      (extract_ligand (.ok testStruct) ligId "extracted_ligand.pdb" true).fileWritten =
        some ("extracted_ligand.pdb", []) ∧
      residueKeys [] = [] := by
  decide

/-- Claim C10: the confirmation line is printed only when the save
invocation returned without error; when the save raises, its error
propagates out of the call and nothing is printed. -/
theorem c10_print_only_after_save_returns (s : PDBStructure) (lid : ResId)
    (out : String) (w : Bool)
    (hm : (findFirstMatch lid s).isSome = true) :
    ((extract_ligand (.ok s) lid out w).printed ≠ [] →
        (PDBIO_save w s (.rawTuple lid)).error = none) ∧
      ∀ e : PyError, (PDBIO_save w s (.rawTuple lid)).error = some e →
        (extract_ligand (.ok s) lid out w).printed = [] ∧
          (extract_ligand (.ok s) lid out w).error = some e := by
  cases h : findFirstMatch lid s with
  | none => rw [h] at hm; simp at hm
  | some r =>
    cases he : (PDBIO_save w s (.rawTuple lid)).error with
    | none => simp [extract_ligand, h, he]
    | some err => simp [extract_ligand, h, he]

/-- Witness for C10 at the scenario input, where the save does raise. -/
theorem c10_print_only_after_save_returns_witness :
    (findFirstMatch ligId testStruct).isSome = true ∧
      (((extract_ligand (.ok testStruct) ligId "extracted_ligand.pdb" true).printed ≠ [] →
          (PDBIO_save true testStruct (.rawTuple ligId)).error = none) ∧
        ∀ e : PyError,
          (PDBIO_save true testStruct (.rawTuple ligId)).error = some e →
            (extract_ligand (.ok testStruct) ligId "extracted_ligand.pdb" true).printed =
                [] ∧
              (extract_ligand (.ok testStruct) ligId "extracted_ligand.pdb" true).error =
                some e) :=
  ⟨by decide,
    c10_print_only_after_save_returns testStruct ligId "extracted_ligand.pdb" true
      (by decide)⟩

end LigandExtract
